import Mathlib

/-!
Verification development for the GastoSmart backend's goal-contribution and
progress-reconciliation subsystem.

The Python source (`GastoSmart-Backend`) is shallowly embedded here:
- monetary values (Python floats holding exact decimal amounts; the design
  prescribes a fixed-precision decimal money type with exact comparisons) are
  modelled as rationals (`ℚ`);
- the MongoDB goal collection is a `List GoalDoc` and the transaction
  collection a `List TransactionDoc`, wrapped in a `Store`;
- `find_one` / `update_one` / `update_many` become the list functions
  `findOne` / `updateOne` / `updateMany` (Mongo's `find_one` returns the first
  match; `update_one` rewrites the first match and reports the matched count —
  in all embedded paths the `$set` document changes `updated_at` to a fresh
  timestamp, so matched and modified counts coincide);
- Python exceptions become `Except` values: each operation body is an
  `Except`-valued core, and the source's `except Exception: return None`
  wrapper is a surrounding `match` discarding the error;
- the best-effort ledger insert (whose own exceptions the source catches and
  logs) is modelled by a boolean `ledgerOk` input saying whether the insert
  succeeds.
-/

namespace GastoSmart

/-- `GoalStatus` from `models/goal.py`: active / completed / failed / archived. -/
inductive GoalStatus where
  | active
  | completed
  | failed
  | archived
deriving DecidableEq, Repr

/-- A document of the `goals` collection, with the fields the goal operations
read or write.  `id` stands for the Mongo `_id`; `updated_at` is a logical
timestamp (`none` before the first mutation, as `create_goal` stores `null`). -/
structure GoalDoc where
  id : Nat
  user_id : String
  name : String
  category : Option String
  target_amount : ℚ
  current_amount : ℚ
  status : GoalStatus
  progress_percentage : ℚ
  is_public : Bool
  is_main : Bool
  updated_at : Option Nat
deriving DecidableEq, Repr

/-- A document of the `transactions` collection as inserted by the
contribution operations (subtype `goal_contribution`). -/
structure TransactionDoc where
  user_id : String
  txType : String
  amount : ℚ
  category : String
  goal_id : Nat
  goal_name : String
deriving DecidableEq, Repr

/-- The two collections the goal operations touch. -/
structure Store where
  goals : List GoalDoc
  transactions : List TransactionDoc
deriving DecidableEq, Repr

/-- `GoalContribution` from `models/goal.py` (the ephemeral request body).
The description only feeds the free-text ledger description, which no claim
inspects, so it is omitted from the embedded record. -/
structure Contribution where
  amount : ℚ
deriving DecidableEq, Repr

/-- Pydantic validation on `GoalContribution.amount`: strictly positive and at
most the fixed ceiling 1 000 000 000. -/
def Contribution.valid (c : Contribution) : Prop :=
  0 < c.amount ∧ c.amount ≤ 1000000000

instance (c : Contribution) : Decidable c.valid := by
  unfold Contribution.valid; infer_instance

/-- Mongo `find_one(filter)`: first document matching the filter, if any. -/
def findOne (p : GoalDoc → Bool) : List GoalDoc → Option GoalDoc
  | [] => none
  | g :: gs => if p g then some g else findOne p gs

/-- Mongo `update_one(filter, {$set : …})`: rewrite the first matching
document, returning the new list together with the matched count (0 or 1). -/
def updateOne (p : GoalDoc → Bool) (f : GoalDoc → GoalDoc) :
    List GoalDoc → List GoalDoc × Nat
  | [] => ([], 0)
  | g :: gs =>
      if p g then (f g :: gs, 1)
      else
        let r := updateOne p f gs
        (g :: r.1, r.2)

/-- Mongo `update_many(filter, {$set : …})`: rewrite every matching document. -/
def updateMany (p : GoalDoc → Bool) (f : GoalDoc → GoalDoc)
    (l : List GoalDoc) : List GoalDoc :=
  l.map fun g => if p g then f g else g

theorem findOne_eq_none {p : GoalDoc → Bool} {l : List GoalDoc}
    (h : ∀ g ∈ l, p g = false) : findOne p l = none := by
  induction l with
  | nil => rfl
  | cons g gs ih =>
      simp only [findOne]
      rw [h g (List.mem_cons_self g gs)]
      exact ih fun x hx => h x (List.mem_cons_of_mem g hx)

theorem findOne_sat {p : GoalDoc → Bool} {l : List GoalDoc} {g : GoalDoc}
    (h : findOne p l = some g) : p g = true := by
  induction l with
  | nil => simp [findOne] at h
  | cons x xs ih =>
      simp only [findOne] at h
      by_cases hx : p x
      · rw [if_pos hx] at h; cases h; exact hx
      · rw [if_neg hx] at h; exact ih h

theorem updateOne_of_none {p : GoalDoc → Bool} {f : GoalDoc → GoalDoc}
    {l : List GoalDoc} (h : findOne p l = none) : updateOne p f l = (l, 0) := by
  induction l with
  | nil => rfl
  | cons x xs ih =>
      simp only [findOne] at h
      by_cases hx : p x
      · rw [if_pos hx] at h; cases h
      · rw [if_neg hx] at h
        simp only [updateOne, if_neg hx, ih h]

theorem updateOne_count {p : GoalDoc → Bool} {f : GoalDoc → GoalDoc}
    {l : List GoalDoc} {g : GoalDoc} (h : findOne p l = some g) :
    (updateOne p f l).2 = 1 := by
  induction l with
  | nil => simp [findOne] at h
  | cons x xs ih =>
      simp only [findOne] at h
      by_cases hx : p x
      · simp [updateOne, hx]
      · rw [if_neg hx] at h
        simp only [updateOne, if_neg hx]
        exact ih h

theorem findOne_updateOne {p : GoalDoc → Bool} {f : GoalDoc → GoalDoc}
    {l : List GoalDoc} {g : GoalDoc}
    (h : findOne p l = some g) (hf : ∀ x, p (f x) = p x) :
    findOne p (updateOne p f l).1 = some (f g) := by
  induction l with
  | nil => simp [findOne] at h
  | cons x xs ih =>
      simp only [findOne] at h
      by_cases hx : p x
      · rw [if_pos hx] at h
        cases h
        simp [updateOne, findOne, hx, hf]
      · rw [if_neg hx] at h
        simp only [updateOne, if_neg hx, findOne]
        exact ih h

/-- `Goal.calculate_progress` from `models/goal.py`:
`0.0` when `target_amount == 0`, else `min(current / target * 100, 100.0)`. -/
def calculate_progress (current target : ℚ) : ℚ :=
  if target = 0 then 0 else min (current / target * 100) 100

/-- The inline progress computation of `GoalOperations.create_goal`
(`goal_operations.py` lines 70–71):
`progress = current / target * 100 if target > 0 else 0`, then
`min(progress, 100.0)` is stored. -/
def create_progress (current target : ℚ) : ℚ :=
  min (if target > 0 then current / target * 100 else 0) 100

/-- The exceptions the contribution bodies can raise before their catch-all
handler: the `ValueError` of the remaining-capacity check (carrying in its
message the attempted and the remaining amount) and Python's
`ZeroDivisionError` from `new_amount / target_amount` when the stored target
is zero. -/
inductive PyError where
  | valueError (attempted remaining : ℚ)
  | zeroDivision
deriving DecidableEq, Repr

/-- The ledger document built by the contribution operations (pre-update goal
snapshot; `fallback` is the category default — `"Meta"` for the by-id path,
`"Meta Principal"` for the main-goal path). -/
def mkContributionTx (uid : String) (c : Contribution) (g : GoalDoc)
    (fallback : String) : TransactionDoc :=
  { user_id := uid
    txType := "goal_contribution"
    amount := c.amount
    category := g.category.getD fallback
    goal_id := g.id
    goal_name := g.name }

/-- The shared body of `GoalOperations.contribute_to_goal` and
`GoalOperations.contribute_to_main_goal` (lines 335–439 and 229–333 of
`goal_operations.py`; the two functions are line-for-line duplicates apart
from the goal lookup filter and the category fallback, both passed in here):

1. `find_one` with `find`; absent goal → `None` (mapped by the router to 404);
2. `remaining = target_amount - current_amount`; `amount > remaining` →
   `raise ValueError(...)` carrying both amounts (state untouched so far);
3. `new_amount = current_amount + amount`, re-clamped to `target_amount`;
4. `progress = new_amount / target_amount * 100` (a `ZeroDivisionError` when
   the stored target is zero); the update document stores
   `min(progress, 100.0)` and sets status to completed when the *unclamped*
   `progress >= 100`;
5. `update_one` filtered on `(_id, user_id)` only; matched count 0 → `None`;
6. best-effort ledger insert (its own exceptions are caught and logged —
   `ledgerOk` says whether it succeeds);
7. return the re-fetched goal.

Both raises happen before any write, so an error leaves the store as given.
The `$set` document of the update (lines 370–389: `new_amount = current +
amount` re-clamped to the target, progress `new_amount / target * 100` stored
clamped from above, status overwritten to completed when the *unclamped*
progress reaches 100) is split out as `contributionSet`, computed from the
pre-update snapshot `goal` and applied to a stored document `g`. -/
def contributionSet (goal : GoalDoc) (c : Contribution) (now : Nat)
    (g : GoalDoc) : GoalDoc :=
  let new_amount0 := goal.current_amount + c.amount
  let new_amount :=
    if new_amount0 > goal.target_amount then goal.target_amount
    else new_amount0
  let progress := new_amount / goal.target_amount * 100
  { g with
    current_amount := new_amount
    updated_at := some now
    progress_percentage := min progress 100
    status := if progress ≥ 100 then .completed else g.status }

def contributeCore (s : Store) (find : GoalDoc → Bool) (uid : String)
    (fallback : String) (c : Contribution) (ledgerOk : Bool) (now : Nat) :
    Except PyError (Option GoalDoc × Store) :=
  match findOne find s.goals with
  | none => .ok (none, s)
  | some goal =>
      let remaining := goal.target_amount - goal.current_amount
      if c.amount > remaining then
        .error (.valueError c.amount remaining)
      else
        if goal.target_amount = 0 then .error .zeroDivision
        else
          let u := updateOne (fun g => g.id == goal.id && g.user_id == uid)
            (contributionSet goal c now) s.goals
          if u.2 = 0 then .ok (none, { s with goals := u.1 })
          else
            let s1 : Store := { s with goals := u.1 }
            let s2 : Store :=
              if ledgerOk then
                { s1 with transactions :=
                    s1.transactions ++ [mkContributionTx uid c goal fallback] }
              else s1
            .ok (findOne (fun g => g.id == goal.id && g.user_id == uid)
                  s2.goals, s2)

/-- `GoalOperations.contribute_to_goal`: the body above under the function's
`except Exception as e: … return None` — every raise (including the
remaining-capacity `ValueError`) is swallowed and turned into `None`, with the
store in the state it had when the exception was raised (both raises precede
any write, so that state is the input store). -/
def contribute_to_goal (s : Store) (gid : Nat) (uid : String)
    (c : Contribution) (ledgerOk : Bool) (now : Nat) :
    Option GoalDoc × Store :=
  match contributeCore s (fun g => g.id == gid && g.user_id == uid) uid
      "Meta" c ledgerOk now with
  | .ok r => r
  | .error _ => (none, s)

/-- `GoalOperations.contribute_to_main_goal`: identical to
`contribute_to_goal` except that the goal is looked up by
`{user_id, is_main: True}` and the category fallback is `"Meta Principal"`;
its catch-all likewise turns the `ValueError` into `None`. -/
def contribute_to_main_goal (s : Store) (uid : String) (c : Contribution)
    (ledgerOk : Bool) (now : Nat) : Option GoalDoc × Store :=
  match contributeCore s (fun g => g.user_id == uid && g.is_main) uid
      "Meta Principal" c ledgerOk now with
  | .ok r => r
  | .error _ => (none, s)

/-- The HTTP outcomes of the contribution endpoints in `routers/goals.py`.
`badRequest` is the `except ValueError` branch (HTTP 400 whose detail string
carries the attempted and remaining amounts); it is unreachable, because the
database operations catch every exception internally and return `None`.
`internalError` is the endpoint's trailing `except Exception` → HTTP 500. -/
inductive ContributeHttp where
  | ok (g : GoalDoc)
  | badRequest (attempted remaining : ℚ)
  | internalError
deriving DecidableEq, Repr

/-- `POST /goals/{goal_id}/contribute` (`routers/goals.py` lines 349–404):
calls `contribute_to_goal`; a returned goal → 200.  On `None` the handler
raises `HTTPException(404)` inside its own `try`, and that raise is caught by
the handler's trailing `except Exception`, which re-raises HTTP 500 — so the
surfaced outcome of the `None` path is the generic 500.  The
`except ValueError` → 400 branch never fires since `contribute_to_goal` never
raises. -/
def router_contribute_to_goal (s : Store) (gid : Nat) (uid : String)
    (c : Contribution) (ledgerOk : Bool) (now : Nat) : ContributeHttp × Store :=
  let r := contribute_to_goal s gid uid c ledgerOk now
  match r.1 with
  | some g => (.ok g, r.2)
  | none => (.internalError, r.2)

/-- `POST /goals/main-goal/contribute` (`routers/goals.py` lines 239–284),
same shape as the by-id endpoint (its raised 404 is likewise re-wrapped as a
500 by its own catch-all). -/
def router_contribute_to_main_goal (s : Store) (uid : String)
    (c : Contribution) (ledgerOk : Bool) (now : Nat) : ContributeHttp × Store :=
  let r := contribute_to_main_goal s uid c ledgerOk now
  match r.1 with
  | some g => (.ok g, r.2)
  | none => (.internalError, r.2)

/-- `GoalCreate` from `models/goal.py`, restricted to the fields the embedded
goal document carries. -/
structure GoalCreate where
  name : String
  category : String
  target_amount : ℚ
  current_amount : ℚ := 0
  is_public : Bool := false
  is_main : Bool := false
deriving DecidableEq, Repr

/-- Pydantic validation on `GoalCreate`: `target_amount > 0` and
`current_amount >= 0`.  There is no cross-field check relating
`current_amount` to `target_amount` (unlike the `Goal` model, whose validator
rejects `current_amount > target_amount`). -/
def GoalCreate.valid (gc : GoalCreate) : Prop :=
  0 < gc.target_amount ∧ 0 ≤ gc.current_amount

/-- `GoalOperations.create_goal` (lines 37–89): builds the document with
status `active`, stores `min(progress, 100)` where
`progress = current / target * 100 if target > 0 else 0`, inserts it and
returns the re-fetched document.  `newId` is the store-generated `_id`. -/
def create_goal (s : Store) (uid : String) (gc : GoalCreate)
    (newId : Nat) : GoalDoc × Store :=
  let doc : GoalDoc :=
    { id := newId
      user_id := uid
      name := gc.name
      category := some gc.category
      target_amount := gc.target_amount
      current_amount := gc.current_amount
      status := .active
      progress_percentage := create_progress gc.current_amount gc.target_amount
      is_public := gc.is_public
      is_main := gc.is_main
      updated_at := none }
  (doc, { s with goals := s.goals ++ [doc] })

/-- `GoalUpdate` from `models/goal.py`, restricted to the embedded fields.
Every field is optional; only the supplied ones are written. -/
structure GoalUpdate where
  name : Option String := none
  category : Option String := none
  target_amount : Option ℚ := none
  current_amount : Option ℚ := none
  status : Option GoalStatus := none
  is_public : Option Bool := none
  is_main : Option Bool := none
deriving DecidableEq, Repr

/-- Pydantic validation on `GoalUpdate`: a supplied `target_amount` must be
positive and a supplied `current_amount` non-negative.  As with `GoalCreate`,
there is no check that `current_amount <= target_amount`. -/
def GoalUpdate.valid (u : GoalUpdate) : Prop :=
  (∀ t, u.target_amount = some t → 0 < t) ∧
  (∀ cv, u.current_amount = some cv → 0 ≤ cv)

/-- The `$set` document `update_goal` builds: each supplied field, plus a
fresh `updated_at`. -/
def applyGoalUpdate (u : GoalUpdate) (now : Nat) (g : GoalDoc) : GoalDoc :=
  { g with
    name := u.name.getD g.name
    category := match u.category with
      | some cat => some cat
      | none => g.category
    target_amount := u.target_amount.getD g.target_amount
    current_amount := u.current_amount.getD g.current_amount
    status := u.status.getD g.status
    is_public := u.is_public.getD g.is_public
    is_main := u.is_main.getD g.is_main
    updated_at := some now }

/-- `GoalOperations.update_goal` (lines 157–227):

1. `update_one` on `(_id, user_id)` with the `$set` document;
   modified count 0 → `None`;
2. re-fetch the goal;
3. recompute `progress = current_amount / target_amount * 100` — with no zero
   guard, so a zero stored target raises `ZeroDivisionError`, which the
   catch-all turns into `None` *after* step 1 already persisted;
4. a second `update_one`, filtered on `_id` alone, stores
   `min(progress, 100.0)` (no lower clamp), and the returned document carries
   that progress value. -/
def update_goal (s : Store) (gid : Nat) (uid : String) (u : GoalUpdate)
    (now : Nat) : Option GoalDoc × Store :=
  let r1 := updateOne (fun g => g.id == gid && g.user_id == uid)
    (applyGoalUpdate u now) s.goals
  if r1.2 = 0 then (none, { s with goals := r1.1 })
  else
    match findOne (fun g => g.id == gid && g.user_id == uid) r1.1 with
    | none => (none, { s with goals := r1.1 })
    | some updated =>
        if updated.target_amount = 0 then (none, { s with goals := r1.1 })
        else
          let progress :=
            updated.current_amount / updated.target_amount * 100
          let r2 := updateOne (fun g => g.id == gid)
            (fun g => { g with progress_percentage := min progress 100 }) r1.1
          (some { updated with progress_percentage := min progress 100 },
           { s with goals := r2.1 })

/-- Outcomes of the `set-main` endpoint: `ok`, the 404 raised when the second
update matched nothing, and the (unreachable single-threaded) 404 of the
post-update re-fetch.  (The endpoint's own catch-all re-wraps the raised 404
as a 500 before it leaves the process; the detection itself is what is
modelled.) -/
inductive SetMainOutcome where
  | ok (g : GoalDoc)
  | notFound
  | notFoundAfter
deriving DecidableEq, Repr

/-- `POST /goals/{goal_id}/set-main` (`routers/goals.py` lines 286–347):
first `update_many` clears `is_main` on *every* goal of the user, then
`update_one` sets it on the target; only then is a missing/foreign goal
detected (modified count 0 → 404), with the clearing already persisted. -/
def set_goal_as_main (s : Store) (gid : Nat) (uid : String) (now : Nat) :
    SetMainOutcome × Store :=
  let goals1 := updateMany (fun g => g.user_id == uid && g.is_main)
    (fun g => { g with is_main := false, updated_at := some now }) s.goals
  let u := updateOne (fun g => g.id == gid && g.user_id == uid)
    (fun g => { g with is_main := true, updated_at := some now }) goals1
  let s2 : Store := { s with goals := u.1 }
  if u.2 = 0 then (.notFound, s2)
  else
    match findOne (fun g => g.id == gid && g.user_id == uid) u.1 with
    | none => (.notFoundAfter, s2)
    | some g => (.ok g, s2)

/-- `GoalStats` from `models/goal.py`, all fields defaulting to zero. -/
structure GoalStats where
  total_saved : ℚ := 0
  active_goals_count : Nat := 0
  completed_goals_count : Nat := 0
  failed_goals_count : Nat := 0
  total_goals_count : Nat := 0
  average_progress : ℚ := 0
  total_target_amount : ℚ := 0
deriving DecidableEq, Repr

/-- One output document of the `$group`-by-status aggregation stage in
`get_goal_stats`: count, summed current and target amounts, and the average
progress of the group. -/
structure StatusGroup where
  status : GoalStatus
  count : Nat
  total_current : ℚ
  total_target : ℚ
  avg_progress : ℚ
deriving DecidableEq, Repr

/-- All four status values (Mongo groups by the distinct stored values). -/
def statusList : List GoalStatus :=
  [.active, .completed, .failed, .archived]

/-- The group document for one status over the matched goals. -/
def groupFor (l : List GoalDoc) (st : GoalStatus) : StatusGroup :=
  let g := l.filter fun x => x.status == st
  { status := st
    count := g.length
    total_current := (g.map (·.current_amount)).sum
    total_target := (g.map (·.target_amount)).sum
    avg_progress :=
      if g.length = 0 then 0
      else (g.map (·.progress_percentage)).sum / (g.length : ℚ) }

/-- The aggregation results: one group per status actually present among the
matched goals (Mongo emits no group for an absent status value). -/
def statusGroups (l : List GoalDoc) : List StatusGroup :=
  (statusList.map (groupFor l)).filter fun r => r.count != 0

/-- The Python loop body of `get_goal_stats` (lines 494–504): per-status
counts are recorded for active / completed / failed only (an archived group
sets no counter), while `total_saved` and `total_target_amount` accumulate
over every group. -/
def statsStep (acc : GoalStats) (r : StatusGroup) : GoalStats :=
  { acc with
    active_goals_count :=
      if r.status == .active then r.count else acc.active_goals_count
    completed_goals_count :=
      if r.status == .completed then r.count else acc.completed_goals_count
    failed_goals_count :=
      if r.status == .failed then r.count else acc.failed_goals_count
    total_saved := acc.total_saved + r.total_current
    total_target_amount := acc.total_target_amount + r.total_target }

/-- `GoalOperations.get_goal_stats` (lines 464–517): run the group-by-status
aggregation, fold the groups, set
`total_goals_count = active + completed + failed` (archived goals are *not*
counted), and when that count is positive set
`average_progress = (Σ over all groups of avg_progress * count) / total_goals_count`. -/
def get_goal_stats (s : Store) (uid : String) : GoalStats :=
  let l := s.goals.filter fun g => g.user_id == uid
  let rs := statusGroups l
  let st0 := rs.foldl statsStep {}
  let st := { st0 with
    total_goals_count := st0.active_goals_count + st0.completed_goals_count
      + st0.failed_goals_count }
  if st.total_goals_count > 0 then
    let total_progress :=
      (rs.map fun r => r.avg_progress * (r.count : ℚ)).sum
    { st with average_progress := total_progress / (st.total_goals_count : ℚ) }
  else st

/-- The goal-document `$set` a contribution computes, separated from its
application so interleavings of concurrent contributions can be analysed: the
read-check-compute phase of `contribute_to_goal` up to (but excluding) the
`update_one` call. -/
structure PlannedWrite where
  goal_id : Nat
  user_id : String
  new_amount : ℚ
  progress : ℚ
  now : Nat
deriving DecidableEq, Repr

/-- The read-check-compute phase of `contribute_to_goal` against the store
state it happens to read: `find_one`, the remaining-capacity check, the
clamped new amount and the raw progress.  `none` when the goal is absent or
the contribution is rejected (no write is attempted then). -/
def contributePlan (s : Store) (gid : Nat) (uid : String) (c : Contribution)
    (now : Nat) : Option PlannedWrite :=
  match findOne (fun g => g.id == gid && g.user_id == uid) s.goals with
  | none => none
  | some goal =>
      let remaining := goal.target_amount - goal.current_amount
      if c.amount > remaining then none
      else
        let new_amount0 := goal.current_amount + c.amount
        let new_amount :=
          if new_amount0 > goal.target_amount then goal.target_amount
          else new_amount0
        if goal.target_amount = 0 then none
        else
          some { goal_id := gid
                 user_id := uid
                 new_amount := new_amount
                 progress := new_amount / goal.target_amount * 100
                 now := now }

/-- The write phase of `contribute_to_goal`: the `update_one` of the planned
`$set` document, filtered — exactly as in the source — on `(_id, user_id)`
only, with the matched count returned. -/
def applyWrite (s : Store) (w : PlannedWrite) : Store × Nat :=
  let u := updateOne (fun g => g.id == w.goal_id && g.user_id == w.user_id)
    (fun g =>
      { g with
        current_amount := w.new_amount
        updated_at := some w.now
        progress_percentage := min w.progress 100
        status := if w.progress ≥ 100 then .completed else g.status })
    s.goals
  ({ s with goals := u.1 }, u.2)

/-- The goals of one user, as matched by the stats aggregation. -/
def userGoals (s : Store) (uid : String) : List GoalDoc :=
  s.goals.filter fun g => g.user_id == uid

/-- How many of the goals have the given status. -/
def countStatus (l : List GoalDoc) (st : GoalStatus) : Nat :=
  (l.filter fun x => x.status == st).length

/-- Sum of the stored progress over the goals with the given status. -/
def progSum (l : List GoalDoc) (st : GoalStatus) : ℚ :=
  ((l.filter fun x => x.status == st).map (·.progress_percentage)).sum

/-- Sum of the stored progress over all the goals. -/
def sumProgress (l : List GoalDoc) : ℚ :=
  (l.map (·.progress_percentage)).sum

/-- The goal count `get_goal_stats` actually uses as `total_goals_count`:
active + completed + failed, archived excluded. -/
def countedGoals (l : List GoalDoc) : Nat :=
  countStatus l .active + countStatus l .completed + countStatus l .failed

/-- The average-progress formula as the specification words it: the sum over
every status group (archived included) of `avg_progress * count`, divided by
the total number of the user's goals across all statuses.  This definition
follows the spec's words (for comparison against `get_goal_stats`), not the
source. -/
def claimAverageProgress (l : List GoalDoc) : ℚ :=
  if l.length = 0 then 0
  else ((statusGroups l).map fun r => r.avg_progress * (r.count : ℚ)).sum
    / (l.length : ℚ)

theorem goalStatus_beq (a b : GoalStatus) : (a == b) = decide (a = b) := rfl

/-! Concrete fixtures for the evaluation theorems. -/

/-- A goal with remaining capacity 50 (target 100, current 50). -/
def overGoal : GoalDoc :=
  { id := 1, user_id := "u", name := "Viaje", category := some "Viajes",
    target_amount := 100, current_amount := 50, status := .active,
    progress_percentage := 50, is_public := false, is_main := true,
    updated_at := none }

/-- Store holding only `overGoal`. -/
def overStore : Store := { goals := [overGoal], transactions := [] }

/-- A contribution of 60, exceeding `overGoal`'s remaining 50. -/
def overContrib : Contribution := { amount := 60 }

/-- C1: the specification promises that an over-capacity contribution fails
with an `ExceedsRemainingCapacity` error surfaced to the caller carrying both
the attempted and the remaining amount.  In the code, the capacity check does
raise a `ValueError` carrying both amounts — but each contribution
operation's own `except Exception` swallows it and returns `None`, which the
endpoints surface as a generic failure with no amounts (the 404 they raise is
even re-wrapped as a 500 by their catch-all).  This theorem evaluates the
code on a concrete over-capacity contribution (goal target 100, current 50,
attempted 60): the internal bodies produce the amount-carrying error, yet
both public operations return `None` with the store untouched and both
endpoints surface `internalError`. -/
theorem contribute_exceeds_error_swallowed :
    contributeCore overStore (fun g => g.id == 1 && g.user_id == "u") "u"
        "Meta" overContrib true 5 = .error (.valueError 60 50)
    ∧ contributeCore overStore (fun g => g.user_id == "u" && g.is_main) "u"
        "Meta Principal" overContrib true 5 = .error (.valueError 60 50)
    ∧ contribute_to_goal overStore 1 "u" overContrib true 5 = (none, overStore)
    ∧ contribute_to_main_goal overStore "u" overContrib true 5
        = (none, overStore)
    ∧ (router_contribute_to_goal overStore 1 "u" overContrib true 5).1
        = .internalError
    ∧ (router_contribute_to_main_goal overStore "u" overContrib true 5).1
        = .internalError := by
  refine ⟨?_, ?_, ?_, ?_, ?_, ?_⟩ <;>
    norm_num [contributeCore, contribute_to_goal, contribute_to_main_goal,
      router_contribute_to_goal, router_contribute_to_main_goal, findOne,
      overStore, overGoal, overContrib]

/-- A goal with target 100 and current 0. -/
def updGoal : GoalDoc :=
  { id := 2, user_id := "u", name := "Casa", category := some "Vivienda",
    target_amount := 100, current_amount := 0, status := .active,
    progress_percentage := 0, is_public := false, is_main := false,
    updated_at := none }

/-- Store holding only `updGoal`. -/
def updStore : Store := { goals := [updGoal], transactions := [] }

/-- An update request setting `current_amount` to 200 (twice the target). -/
def updReq : GoalUpdate := { current_amount := some 200 }

/-- The goal document `update_goal` persists for `updReq`: current 200
against target 100, progress clamped to 100. -/
def updResult : GoalDoc :=
  { updGoal with current_amount := 200, progress_percentage := 100,
                 updated_at := some 7 }

/-- C2: the specification claims `0 <= current_amount <= target_amount` is an
invariant preserved by every operation, `update_goal` included.  The `Goal`
model's own validator asserts exactly this ("El monto actual no puede ser
mayor al objetivo"), but `GoalUpdate` lacks the cross-field check and
`update_goal` writes the supplied `current_amount` unchecked, only clamping
the recomputed progress from above.  Evaluating the code: updating the goal
(target 100, current 0) with `current_amount = 200` — a request that passes
`GoalUpdate`'s validation — persists `current_amount = 200 > 100 =
target_amount`. -/
theorem update_goal_violates_invariant :
    GoalUpdate.valid updReq
    ∧ (update_goal updStore 2 "u" updReq 7).1 = some updResult
    ∧ (update_goal updStore 2 "u" updReq 7).2.goals = [updResult]
    ∧ updResult.current_amount = 200
    ∧ updResult.target_amount = 100
    ∧ ¬ updResult.current_amount ≤ updResult.target_amount
    ∧ 0 ≤ updResult.progress_percentage
    ∧ updResult.progress_percentage ≤ 100 := by
  refine ⟨⟨fun t ht => ?_, fun cv hcv => ?_⟩, ?_, ?_, ?_, ?_, ?_, ?_, ?_⟩
  · cases ht
  · cases hcv; norm_num
  all_goals
    norm_num [update_goal, updateOne, findOne, applyGoalUpdate, updStore,
      updGoal, updReq, updResult, min_def]

/-- C5: a contribution strictly above the remaining capacity is rejected
before any write: the operation returns `None` and the store — the goal's
`current_amount`, `progress_percentage`, `status`, `updated_at`, and the
ledger collection — is exactly the input store. -/
theorem contribute_exceeds_no_mutation
    (s : Store) (gid : Nat) (uid : String) (c : Contribution)
    (ledgerOk : Bool) (now : Nat) (g : GoalDoc)
    (hfind : findOne (fun x => x.id == gid && x.user_id == uid) s.goals
      = some g)
    (hgt : c.amount > g.target_amount - g.current_amount) :
    contribute_to_goal s gid uid c ledgerOk now = (none, s) := by
  simp only [contribute_to_goal, contributeCore, hfind, if_pos hgt]

/-- Witness for `contribute_exceeds_no_mutation` at the concrete
over-capacity input. -/
theorem contribute_exceeds_no_mutation_witness :
    findOne (fun x => x.id == 1 && x.user_id == "u") overStore.goals
        = some overGoal
    ∧ overContrib.amount > overGoal.target_amount - overGoal.current_amount
    ∧ contribute_to_goal overStore 1 "u" overContrib true 5
        = (none, overStore) :=
  ⟨by norm_num [findOne, overStore, overGoal],
   by norm_num [overContrib, overGoal],
   contribute_exceeds_no_mutation overStore 1 "u" overContrib true 5 overGoal
     (by norm_num [findOne, overStore, overGoal])
     (by norm_num [overContrib, overGoal])⟩

/-- C6: whether the best-effort ledger insert succeeds or fails has no effect
on the contribution's returned value or on the persisted goal collection, for
both the by-id and the main-goal operations — a ledger failure never fails an
operation whose goal update already succeeded, and never rolls it back. -/
theorem contributeCore_ledger_parts (s : Store) (find : GoalDoc → Bool)
    (uid fb : String) (c : Contribution) (now : Nat) :
    (match contributeCore s find uid fb c false now with
      | .ok r => r | .error _ => (none, s)).1
      = (match contributeCore s find uid fb c true now with
          | .ok r => r | .error _ => (none, s)).1
    ∧ (match contributeCore s find uid fb c false now with
        | .ok r => r | .error _ => (none, s)).2.goals
      = (match contributeCore s find uid fb c true now with
          | .ok r => r | .error _ => (none, s)).2.goals := by
  constructor <;>
  · simp only [contributeCore]
    cases hfo : findOne find s.goals
    all_goals simp only []
    all_goals split_ifs <;> rfl

theorem ledger_failure_never_fails_contribution
    (s : Store) (gid : Nat) (uid : String) (c : Contribution) (now : Nat) :
    (contribute_to_goal s gid uid c false now).1
        = (contribute_to_goal s gid uid c true now).1
    ∧ (contribute_to_goal s gid uid c false now).2.goals
        = (contribute_to_goal s gid uid c true now).2.goals
    ∧ (contribute_to_main_goal s uid c false now).1
        = (contribute_to_main_goal s uid c true now).1
    ∧ (contribute_to_main_goal s uid c false now).2.goals
        = (contribute_to_main_goal s uid c true now).2.goals :=
  ⟨(contributeCore_ledger_parts s (fun g => g.id == gid && g.user_id == uid)
      uid "Meta" c now).1,
   (contributeCore_ledger_parts s (fun g => g.id == gid && g.user_id == uid)
      uid "Meta" c now).2,
   (contributeCore_ledger_parts s (fun g => g.user_id == uid && g.is_main)
      uid "Meta Principal" c now).1,
   (contributeCore_ledger_parts s (fun g => g.user_id == uid && g.is_main)
      uid "Meta Principal" c now).2⟩

/-- Workhorse: a by-id contribution within the remaining capacity succeeds
and returns the re-fetched updated document — the found goal with
`current_amount` increased by the contribution, progress recomputed (clamped
from above), status overwritten to completed exactly when the raw recomputed
progress reaches 100, and a fresh `updated_at`. -/
theorem contribute_to_goal_success
    (s : Store) (gid : Nat) (uid : String) (c : Contribution)
    (ledgerOk : Bool) (now : Nat) (g : GoalDoc)
    (hfind : findOne (fun x => x.id == gid && x.user_id == uid) s.goals
      = some g)
    (hle : c.amount ≤ g.target_amount - g.current_amount)
    (ht : 0 < g.target_amount) :
    (contribute_to_goal s gid uid c ledgerOk now).1 =
      some (contributionSet g c now g) := by
  have hsat := findOne_sat hfind
  simp only [Bool.and_eq_true, beq_iff_eq] at hsat
  obtain ⟨hgid, huid⟩ := hsat
  subst hgid
  have hnot : ¬ c.amount > g.target_amount - g.current_amount := not_lt.mpr hle
  have hne : ¬ g.target_amount = 0 := by positivity
  have hcnt := updateOne_count (f := contributionSet g c now) hfind
  have hre := findOne_updateOne (f := contributionSet g c now) hfind
    (fun x => rfl)
  cases ledgerOk <;>
    simp [contribute_to_goal, contributeCore, hfind, hnot, hne, hcnt, hre]

/-- The contribution `$set` applied to the snapshot goal itself, when the new
amount stays within the target (so the defensive clamp is a no-op). -/
theorem contributionSet_self (g : GoalDoc) (c : Contribution) (now : Nat)
    (hle2 : g.current_amount + c.amount ≤ g.target_amount) :
    contributionSet g c now g =
      { g with
        current_amount := g.current_amount + c.amount
        updated_at := some now
        progress_percentage :=
          min ((g.current_amount + c.amount) / g.target_amount * 100) 100
        status :=
          if (g.current_amount + c.amount) / g.target_amount * 100 ≥ 100
          then .completed else g.status } := by
  have hnot2 : ¬ g.current_amount + c.amount > g.target_amount :=
    not_lt.mpr hle2
  simp only [contributionSet, if_neg hnot2]

/-- C4: contributing exactly the remaining capacity
(`amount = target_amount - current_amount`, a positive amount since
`GoalContribution` requires `amount > 0`) succeeds and leaves the goal with
`current_amount = target_amount`, `progress_percentage = 100` and
`status = completed`, within the same call. -/
theorem contribute_exact_remaining_completes
    (s : Store) (gid : Nat) (uid : String) (c : Contribution)
    (ledgerOk : Bool) (now : Nat) (g : GoalDoc)
    (hfind : findOne (fun x => x.id == gid && x.user_id == uid) s.goals
      = some g)
    (ht : 0 < g.target_amount)
    (hamt : c.amount = g.target_amount - g.current_amount) :
    ∃ g', (contribute_to_goal s gid uid c ledgerOk now).1 = some g'
      ∧ g'.current_amount = g.target_amount
      ∧ g'.progress_percentage = 100
      ∧ g'.status = .completed := by
  have hfill : g.current_amount + c.amount = g.target_amount := by
    rw [hamt]; ring
  have hkey := contribute_to_goal_success s gid uid c ledgerOk now g hfind
    (le_of_eq hamt) ht
  rw [contributionSet_self g c now (le_of_eq hfill)] at hkey
  have hprog : (g.current_amount + c.amount) / g.target_amount * 100
      = (100 : ℚ) := by
    rw [hfill, div_self (by positivity : g.target_amount ≠ 0), one_mul]
  refine ⟨_, hkey, ?_, ?_, ?_⟩
  · exact hfill
  · simp [hprog]
  · simp [hprog]

/-- Witness for `contribute_exact_remaining_completes`: target 100, current
50, contribution exactly 50. -/
theorem contribute_exact_remaining_completes_witness :
    findOne (fun x => x.id == 1 && x.user_id == "u") overStore.goals
        = some overGoal
    ∧ (0 : ℚ) < overGoal.target_amount
    ∧ (50 : ℚ) = overGoal.target_amount - overGoal.current_amount
    ∧ ∃ g', (contribute_to_goal overStore 1 "u" { amount := 50 } true 5).1
          = some g'
        ∧ g'.current_amount = overGoal.target_amount
        ∧ g'.progress_percentage = 100
        ∧ g'.status = .completed :=
  ⟨by norm_num [findOne, overStore, overGoal],
   by norm_num [overGoal],
   by norm_num [overGoal],
   contribute_exact_remaining_completes overStore 1 "u" { amount := 50 }
     true 5 overGoal (by norm_num [findOne, overStore, overGoal])
     (by norm_num [overGoal]) (by norm_num [overGoal])⟩

/-- C9: the contribution path never inspects the goal's status.  For a goal
of *any* status (archived and failed included) with enough remaining
capacity, the contribution is accepted, `current_amount` strictly increases
by the contributed amount, and the status is overwritten to `completed`
exactly when the new amount reaches the target — otherwise it is left as it
was (so an archived or failed goal can transition directly to completed). -/
theorem contribute_ignores_status
    (s : Store) (gid : Nat) (uid : String) (c : Contribution)
    (ledgerOk : Bool) (now : Nat) (g : GoalDoc)
    (hfind : findOne (fun x => x.id == gid && x.user_id == uid) s.goals
      = some g)
    (ht : 0 < g.target_amount)
    (hpos : 0 < c.amount)
    (hle : c.amount ≤ g.target_amount - g.current_amount) :
    ∃ g', (contribute_to_goal s gid uid c ledgerOk now).1 = some g'
      ∧ g'.current_amount = g.current_amount + c.amount
      ∧ g.current_amount < g'.current_amount
      ∧ g'.status = (if g.target_amount ≤ g.current_amount + c.amount
                     then .completed else g.status) := by
  have hle2 : g.current_amount + c.amount ≤ g.target_amount := by linarith
  have hkey := contribute_to_goal_success s gid uid c ledgerOk now g hfind
    hle ht
  rw [contributionSet_self g c now hle2] at hkey
  have hiff : (g.current_amount + c.amount) / g.target_amount * 100 ≥ 100
      ↔ g.target_amount ≤ g.current_amount + c.amount := by
    rw [ge_iff_le, ← one_le_div ht]
    constructor <;> intro h <;> linarith
  refine ⟨_, hkey, rfl, by simp only []; linarith, ?_⟩
  simp only []
  rw [if_congr hiff rfl rfl]

/-- Witness for `contribute_ignores_status`: an *archived* goal (target 100,
current 50) accepts a contribution of 50 and flips to completed. -/
theorem contribute_ignores_status_witness :
    findOne (fun x => x.id == 9 && x.user_id == "u")
        [{ overGoal with id := 9, status := .archived }] = some
        { overGoal with id := 9, status := .archived }
    ∧ (0 : ℚ) < overGoal.target_amount
    ∧ (0 : ℚ) < (50 : ℚ)
    ∧ (50 : ℚ) ≤ overGoal.target_amount - overGoal.current_amount
    ∧ ∃ g', (contribute_to_goal
          { goals := [{ overGoal with id := 9, status := .archived }],
            transactions := [] } 9 "u" { amount := 50 } true 5).1 = some g'
        ∧ g'.current_amount = overGoal.current_amount + 50
        ∧ overGoal.current_amount < g'.current_amount
        ∧ g'.status = (if overGoal.target_amount
              ≤ overGoal.current_amount + 50
            then GoalStatus.completed else GoalStatus.archived) :=
  ⟨by norm_num [findOne, overGoal],
   by norm_num [overGoal],
   by norm_num,
   by norm_num [overGoal],
   contribute_ignores_status
     { goals := [{ overGoal with id := 9, status := .archived }],
       transactions := [] } 9 "u" { amount := 50 } true 5
     { overGoal with id := 9, status := .archived }
     (by norm_num [findOne, overGoal]) (by norm_num [overGoal]) (by norm_num)
     (by norm_num [overGoal])⟩

/-- C7 counterexample: the claim says the progress calculation returns 0
whenever `target <= 0`, negative targets included.  `Goal.calculate_progress`
only special-cases `target == 0`: at current 50, target −100 it returns
`min(50 / −100 * 100, 100) = −50`, which is neither 0 nor within `[0, 100]`.
(Only the separate inline computation in `create_goal` guards `target > 0`.) -/
theorem calculate_progress_negative_target :
    calculate_progress 50 (-100) = -50
    ∧ ((-100 : ℚ) ≤ 0)
    ∧ calculate_progress 50 (-100) ≠ 0
    ∧ ¬ (0 ≤ calculate_progress 50 (-100)) := by
  refine ⟨?_, ?_, ?_, ?_⟩ <;> norm_num [calculate_progress, min_def]

/-- C7 amended: `calculate_progress` returns 0 when `target = 0` and
otherwise `min(current / target * 100, 100)`; for `target > 0` and
`current ≥ 0` (the domain creation validation guarantees) the result lies in
`[0, 100]`.  The separate create-path computation `create_progress` does
return 0 for every `target ≤ 0`. -/
theorem calculate_progress_spec (current target : ℚ) :
    (target = 0 → calculate_progress current target = 0)
    ∧ (target ≠ 0 →
        calculate_progress current target = min (current / target * 100) 100)
    ∧ (0 < target → 0 ≤ current →
        0 ≤ calculate_progress current target
        ∧ calculate_progress current target ≤ 100)
    ∧ (target ≤ 0 → create_progress current target = 0) := by
  refine ⟨fun h => by simp [calculate_progress, h],
    fun h => by simp [calculate_progress, h], fun ht hc => ⟨?_, ?_⟩,
    fun h => ?_⟩
  · rw [calculate_progress, if_neg (by positivity)]
    exact le_min (by positivity) (by norm_num)
  · rw [calculate_progress, if_neg (by positivity)]
    exact min_le_right _ _
  · rw [create_progress, if_neg (not_lt.mpr h)]
    simp

/-- Witness for `calculate_progress_spec` at current 50, target 100. -/
theorem calculate_progress_spec_witness :
    (0 : ℚ) < 100 ∧ (0 : ℚ) ≤ 50
    ∧ 0 ≤ calculate_progress 50 100 ∧ calculate_progress 50 100 ≤ 100
    ∧ ((100 : ℚ) ≠ 0
        → calculate_progress 50 100 = min ((50 : ℚ) / 100 * 100) 100) :=
  ⟨by norm_num, by norm_num,
   ((calculate_progress_spec 50 100).2.2.1 (by norm_num) (by norm_num)).1,
   ((calculate_progress_spec 50 100).2.2.1 (by norm_num) (by norm_num)).2,
   (calculate_progress_spec 50 100).2.1⟩

theorem mem_updateMany {p : GoalDoc → Bool} {f : GoalDoc → GoalDoc}
    {l : List GoalDoc} {g : GoalDoc} (h : g ∈ updateMany p f l) :
    ∃ g0 ∈ l, g = if p g0 then f g0 else g0 := by
  unfold updateMany at h
  obtain ⟨g0, hg0, rfl⟩ := List.mem_map.mp h
  exact ⟨g0, hg0, rfl⟩

/-- C10: when the target of `set-main` does not exist (or belongs to another
user), the failure is detected only at the second update — after
`update_many` has already cleared `is_main` on every goal of the user.  The
outcome is the not-found detection and the persisted state has *zero* main
goals for that user: the error path mutates state. -/
theorem set_main_not_found_clears_main
    (s : Store) (gid : Nat) (uid : String) (now : Nat)
    (h : ∀ g ∈ s.goals, ¬ (g.id = gid ∧ g.user_id = uid)) :
    (set_goal_as_main s gid uid now).1 = .notFound
    ∧ ∀ g ∈ (set_goal_as_main s gid uid now).2.goals,
        g.user_id = uid → g.is_main = false := by
  have hnone : findOne (fun g => g.id == gid && g.user_id == uid)
      (updateMany (fun g => g.user_id == uid && g.is_main)
        (fun g => { g with is_main := false, updated_at := some now })
        s.goals) = none := by
    apply findOne_eq_none
    intro g hg
    obtain ⟨g0, hg0, hgeq⟩ := mem_updateMany hg
    have hid : g.id = g0.id ∧ g.user_id = g0.user_id := by
      by_cases hp : (g0.user_id == uid && g0.is_main) = true
      · rw [hgeq, if_pos hp]; exact ⟨rfl, rfl⟩
      · rw [hgeq, if_neg hp]; exact ⟨rfl, rfl⟩
    rw [hid.1, hid.2, Bool.eq_false_iff]
    intro hb
    simp only [Bool.and_eq_true, beq_iff_eq] at hb
    exact h g0 hg0 hb
  have hupd := updateOne_of_none
    (f := fun g => { g with is_main := true, updated_at := some now }) hnone
  constructor
  · simp [set_goal_as_main, hupd]
  · simp only [set_goal_as_main, hupd]
    intro g hg huid
    obtain ⟨g0, hg0, hgeq⟩ := mem_updateMany hg
    by_cases hp : (g0.user_id == uid && g0.is_main) = true
    · rw [if_pos hp] at hgeq
      subst hgeq
      rfl
    · rw [if_neg hp] at hgeq
      subst hgeq
      rw [Bool.eq_false_iff]
      intro hm
      exact hp (by simp [huid, hm])

/-- Witness for `set_main_not_found_clears_main`: one user with a single main
goal and a `set-main` call on a nonexistent goal id 99. -/
theorem set_main_not_found_clears_main_witness :
    (∀ g ∈ overStore.goals, ¬ (g.id = 99 ∧ g.user_id = "u"))
    ∧ (set_goal_as_main overStore 99 "u" 5).1 = .notFound
    ∧ ∀ g ∈ (set_goal_as_main overStore 99 "u" 5).2.goals,
        g.user_id = "u" → g.is_main = false :=
  ⟨by intro g hg; simp [overStore, overGoal] at hg; subst hg;
      simp [overGoal],
   (set_main_not_found_clears_main overStore 99 "u" 5
     (by intro g hg; simp [overStore, overGoal] at hg; subst hg;
         simp [overGoal])).1,
   (set_main_not_found_clears_main overStore 99 "u" 5
     (by intro g hg; simp [overStore, overGoal] at hg; subst hg;
         simp [overGoal])).2⟩

/-- A goal for the race scenario: target 100, current 0, owner "r". -/
def raceGoal : GoalDoc :=
  { id := 5, user_id := "r", name := "Meta", category := some "Ahorros",
    target_amount := 100, current_amount := 0, status := .active,
    progress_percentage := 0, is_public := false, is_main := false,
    updated_at := none }

/-- Store holding only `raceGoal`. -/
def raceStore : Store := { goals := [raceGoal], transactions := [] }

/-- The write a contribution of 60 plans against `raceStore`. -/
def raceWrite : PlannedWrite :=
  { goal_id := 5, user_id := "r", new_amount := 60, progress := 60, now := 9 }

/-- The persisted state of a contribution is exactly its planned write applied
to whatever state the collection holds at write time: `contribute_to_goal`'s
goal collection equals `contributePlan` (the read-check-compute phase) fed to
`applyWrite` (the `update_one`), with an absent/rejected plan leaving the
collection unchanged. -/
theorem contribute_eq_plan_apply (s : Store) (gid : Nat) (uid : String)
    (c : Contribution) (ledgerOk : Bool) (now : Nat) :
    (contribute_to_goal s gid uid c ledgerOk now).2.goals
      = (match contributePlan s gid uid c now with
         | none => s.goals
         | some w => (applyWrite s w).1.goals) := by
  simp only [contribute_to_goal, contributeCore, contributePlan]
  cases hfo : findOne (fun x => x.id == gid && x.user_id == uid) s.goals with
  | none => rfl
  | some g =>
      have hsat := findOne_sat hfo
      simp only [Bool.and_eq_true, beq_iff_eq] at hsat
      obtain ⟨hgid, huid⟩ := hsat
      subst hgid
      by_cases h1 : c.amount > g.target_amount - g.current_amount
      · simp only [if_pos h1]
      · by_cases h2 : g.target_amount = 0
        · simp only [if_neg h1, if_pos h2]
        · have hcnt := updateOne_count (f := contributionSet g c now) hfo
          simp only [if_neg h1, if_neg h2, hcnt,
            if_neg (Nat.one_ne_zero)]
          cases ledgerOk <;> rfl

/-- C3 counterexample: the persisted update is *not* conditioned on the
previously-read `current_amount` and a losing writer does not observe zero
matched rows.  Two contributions of 60 both plan against the same state (goal
target 100, current 0); the first write lands (current 60); the second —
now stale — write still matches 1 row and silently overwrites, leaving
current 60 (a lost update); there is no retry and no `ConcurrentModification`
anywhere in the code. -/
theorem contribute_write_not_conditioned :
    contributePlan raceStore 5 "r" { amount := 60 } 9 = some raceWrite
    ∧ (applyWrite raceStore raceWrite).2 = 1
    ∧ (applyWrite (applyWrite raceStore raceWrite).1 raceWrite).2 = 1
    ∧ ((applyWrite (applyWrite raceStore raceWrite).1 raceWrite).1.goals.map
        (·.current_amount)) = [60] := by
  refine ⟨?_, ?_, ?_, ?_⟩ <;>
    norm_num [contributePlan, applyWrite, updateOne, findOne, raceStore,
      raceGoal, raceWrite, min_def]

/-- The goal selected by `(gid, uid)` stays within its target `T`:
every matching stored document has `current_amount ≤ T` and
`target_amount = T`. -/
def goalBound (gid : Nat) (uid : String) (T : ℚ) (s : Store) : Prop :=
  ∀ g, findOne (fun x => x.id == gid && x.user_id == uid) s.goals = some g →
    g.current_amount ≤ T ∧ g.target_amount = T

/-- A planned write targets `(gid, uid)` and its stored amount is bounded by
the target the planning read observed. -/
theorem contributePlan_new_amount_le (s : Store) (gid : Nat) (uid : String)
    (c : Contribution) (now : Nat) (w : PlannedWrite)
    (hw : contributePlan s gid uid c now = some w) :
    w.goal_id = gid ∧ w.user_id = uid ∧
    ∃ g, findOne (fun x => x.id == gid && x.user_id == uid) s.goals = some g
      ∧ w.new_amount ≤ g.target_amount := by
  unfold contributePlan at hw
  cases hfo : findOne (fun x => x.id == gid && x.user_id == uid) s.goals with
  | none => rw [hfo] at hw; cases hw
  | some g =>
      rw [hfo] at hw
      simp only [] at hw
      by_cases h1 : c.amount > g.target_amount - g.current_amount
      · rw [if_pos h1] at hw; cases hw
      · rw [if_neg h1] at hw
        by_cases h2 : g.target_amount = 0
        · rw [if_pos h2] at hw; cases hw
        · rw [if_neg h2] at hw
          cases hw
          refine ⟨rfl, rfl, g, rfl, ?_⟩
          by_cases h3 : g.current_amount + c.amount > g.target_amount
          · rw [if_pos h3]
          · rw [if_neg h3]
            exact not_lt.mp h3

/-- Applying a bounded write aimed at `(gid, uid)` preserves `goalBound`. -/
theorem applyWrite_keeps_goalBound (s : Store) (gid : Nat) (uid : String)
    (w : PlannedWrite) (T : ℚ)
    (hwid : w.goal_id = gid) (hwuid : w.user_id = uid)
    (hna : w.new_amount ≤ T) (h0 : goalBound gid uid T s) :
    goalBound gid uid T (applyWrite s w).1 := by
  intro g' hfind'
  simp only [applyWrite, hwid, hwuid] at hfind'
  cases hfo : findOne (fun x => x.id == gid && x.user_id == uid) s.goals with
  | none =>
      simp only [updateOne_of_none hfo] at hfind'
      rw [hfo] at hfind'
      exact Option.noConfusion hfind'
  | some g =>
      rw [findOne_updateOne (f := fun x =>
        { x with
          current_amount := w.new_amount
          updated_at := some w.now
          progress_percentage := min w.progress 100
          status := if w.progress ≥ 100 then .completed else x.status })
        hfo (fun x => rfl)] at hfind'
      cases hfind'
      exact ⟨hna, (h0 g hfo).2⟩

/-- C3 amended: the update is filtered on `(_id, user_id)` only — a stale
writer still matches and silently overwrites (see the counterexample), and
no retry or `ConcurrentModification` exists.  Nevertheless, because every
planned write stores an *absolute* value pre-clamped to the target read at
planning time, no interleaving of contribution plan/apply phases ever leaves
the goal observable with `current_amount > target_amount`: lost updates are
the failure mode, not overshoot. -/
theorem contribute_interleavings_never_overshoot
    (gid : Nat) (uid : String) (T : ℚ) (ws : List PlannedWrite)
    (hws : ∀ w ∈ ws, ∃ s' c now, contributePlan s' gid uid c now = some w
      ∧ ∀ g, findOne (fun x => x.id == gid && x.user_id == uid) s'.goals
          = some g → g.target_amount = T)
    (s0 : Store) (h0 : goalBound gid uid T s0) :
    goalBound gid uid T (ws.foldl (fun s w => (applyWrite s w).1) s0) := by
  induction ws generalizing s0 with
  | nil => exact h0
  | cons w ws ih =>
      obtain ⟨s', c, now, hplan, htar⟩ := hws w (List.mem_cons_self w ws)
      obtain ⟨hwid, hwuid, g, hfg, hna⟩ :=
        contributePlan_new_amount_le s' gid uid c now w hplan
      have hb := applyWrite_keeps_goalBound s0 gid uid w T hwid hwuid
        (hna.trans (le_of_eq (htar g hfg))) h0
      exact ih (fun x hx => hws x (List.mem_cons_of_mem w hx)) _ hb

/-- Witness for `contribute_interleavings_never_overshoot`: the two stale
writes of the race scenario, applied in sequence, keep the goal at
`current_amount ≤ 100`. -/
theorem contribute_interleavings_never_overshoot_witness :
    (∀ w ∈ [raceWrite, raceWrite],
      ∃ s' c now, contributePlan s' 5 "r" c now = some w
        ∧ ∀ g, findOne (fun x => x.id == 5 && x.user_id == "r") s'.goals
            = some g → g.target_amount = 100)
    ∧ goalBound 5 "r" 100 raceStore
    ∧ goalBound 5 "r" 100
        ([raceWrite, raceWrite].foldl (fun s w => (applyWrite s w).1)
          raceStore) := by
  have hplan : contributePlan raceStore 5 "r" { amount := 60 } 9
      = some raceWrite := by
    norm_num [contributePlan, findOne, raceStore, raceGoal, raceWrite]
  have htar : ∀ g, findOne (fun x => x.id == 5 && x.user_id == "r")
      raceStore.goals = some g → g.target_amount = 100 := by
    intro g hg
    simp [findOne, raceStore, raceGoal] at hg
    rw [← hg]
  have hws : ∀ w ∈ [raceWrite, raceWrite],
      ∃ s' c now, contributePlan s' 5 "r" c now = some w
        ∧ ∀ g, findOne (fun x => x.id == 5 && x.user_id == "r") s'.goals
            = some g → g.target_amount = 100 := by
    intro w hw
    simp only [List.mem_cons, List.mem_singleton] at hw
    rcases hw with h | h | h
    · exact h ▸ ⟨raceStore, { amount := 60 }, 9, hplan, htar⟩
    · exact h ▸ ⟨raceStore, { amount := 60 }, 9, hplan, htar⟩
    · cases h
  have h0 : goalBound 5 "r" 100 raceStore := by
    intro g hg
    simp [findOne, raceStore, raceGoal] at hg
    rw [← hg]
    norm_num [raceGoal]
  exact ⟨hws, h0,
    contribute_interleavings_never_overshoot 5 "r" 100 [raceWrite, raceWrite]
      hws raceStore h0⟩

/-- A status group's `avg_progress * count` recovers the plain progress sum
of that group (also when the group is empty, where both sides are 0). -/
theorem groupFor_avg_mul (l : List GoalDoc) (st : GoalStatus) :
    (groupFor l st).avg_progress * ((groupFor l st).count : ℚ)
      = progSum l st := by
  by_cases h : (l.filter fun x => x.status == st).length = 0
  · have he : l.filter (fun x => x.status == st) = [] :=
      List.length_eq_zero.mp h
    simp [groupFor, progSum, he]
  · simp only [groupFor, progSum, if_neg h]
    rw [div_mul_cancel₀]
    exact Nat.cast_ne_zero.mpr h

/-- Dropping the empty groups does not change the `avg_progress * count`
sum, because an empty group contributes `avg * 0 = 0`. -/
theorem sum_avg_filter (xs : List StatusGroup) :
    ((xs.filter fun r => r.count != 0).map
      fun r => r.avg_progress * (r.count : ℚ)).sum
    = (xs.map fun r => r.avg_progress * (r.count : ℚ)).sum := by
  induction xs with
  | nil => rfl
  | cons x xs ih =>
      rw [List.filter_cons]
      by_cases h : x.count = 0
      · simp [h, ih]
      · simp [h, ih]

theorem progSum_cons (g : GoalDoc) (l : List GoalDoc) (st : GoalStatus) :
    progSum (g :: l) st
      = (if g.status == st then g.progress_percentage else 0)
        + progSum l st := by
  simp only [progSum, List.filter_cons]
  by_cases h : (g.status == st) = true
  · simp [h]
  · simp [h]

/-- Every goal has exactly one of the four statuses, so the per-status
progress sums partition the total progress sum. -/
theorem progSum_partition (l : List GoalDoc) :
    progSum l .active + progSum l .completed + progSum l .failed
      + progSum l .archived = sumProgress l := by
  induction l with
  | nil => simp [progSum, sumProgress]
  | cons g l ih =>
      simp only [progSum_cons, sumProgress, List.map_cons, List.sum_cons]
      simp only [sumProgress] at ih
      cases hst : g.status <;> simp [hst, goalStatus_beq] <;> linarith [ih]

/-- The aggregation's weighted numerator `Σ avg_progress * count` over the
status groups actually present equals the plain progress sum over *all* the
goals — archived included. -/
theorem statusGroups_sum (l : List GoalDoc) :
    ((statusGroups l).map fun r => r.avg_progress * (r.count : ℚ)).sum
      = sumProgress l := by
  rw [statusGroups, sum_avg_filter]
  simp only [statusList, List.map_cons, List.map_nil, List.map_map,
    List.sum_cons, List.sum_nil, Function.comp, groupFor_avg_mul]
  rw [← progSum_partition l]
  ring

theorem groupFor_status (l : List GoalDoc) (st : GoalStatus) :
    (groupFor l st).status = st := rfl

theorem groupFor_count (l : List GoalDoc) (st : GoalStatus) :
    (groupFor l st).count = countStatus l st := rfl

/-- The status-group fold tracks `active_goals_count` as the count of the
last active group seen (at most one exists). -/
theorem foldl_statsStep_active (rs : List StatusGroup) (acc : GoalStats) :
    (rs.foldl statsStep acc).active_goals_count
      = ((rs.filter fun r => r.status == .active).foldl
          (fun _ r => r.count) acc.active_goals_count) := by
  induction rs generalizing acc with
  | nil => rfl
  | cons r rs ih =>
      rw [List.foldl_cons, ih, List.filter_cons]
      by_cases h : r.status = .active <;>
        simp [h, statsStep, goalStatus_beq]

/-- As `foldl_statsStep_active`, for `completed_goals_count`. -/
theorem foldl_statsStep_completed (rs : List StatusGroup) (acc : GoalStats) :
    (rs.foldl statsStep acc).completed_goals_count
      = ((rs.filter fun r => r.status == .completed).foldl
          (fun _ r => r.count) acc.completed_goals_count) := by
  induction rs generalizing acc with
  | nil => rfl
  | cons r rs ih =>
      rw [List.foldl_cons, ih, List.filter_cons]
      by_cases h : r.status = .completed <;>
        simp [h, statsStep, goalStatus_beq]

/-- As `foldl_statsStep_active`, for `failed_goals_count`. -/
theorem foldl_statsStep_failed (rs : List StatusGroup) (acc : GoalStats) :
    (rs.foldl statsStep acc).failed_goals_count
      = ((rs.filter fun r => r.status == .failed).foldl
          (fun _ r => r.count) acc.failed_goals_count) := by
  induction rs generalizing acc with
  | nil => rfl
  | cons r rs ih =>
      rw [List.foldl_cons, ih, List.filter_cons]
      by_cases h : r.status = .failed <;>
        simp [h, statsStep, goalStatus_beq]

/-- Among the present status groups, at most the one of the given status
remains after filtering by it. -/
theorem statusGroups_filter_status (l : List GoalDoc) (st : GoalStatus)
    (hst : st = .active ∨ st = .completed ∨ st = .failed) :
    ((statusGroups l).filter fun r => r.status == st)
      = if (groupFor l st).count != 0 then [groupFor l st] else [] := by
  rw [statusGroups, List.filter_filter]
  rcases hst with h | h | h <;> subst h <;>
    simp +decide [statusList, List.map_cons, List.map_nil, List.filter_cons,
      List.filter_nil, groupFor_status]

/-- The loop over the status groups records as counts exactly the per-status
goal counts for active / completed / failed (an archived group sets none). -/
theorem stats_fold_counts (l : List GoalDoc) :
    (((statusGroups l).foldl statsStep {}).active_goals_count
        = countStatus l .active)
    ∧ (((statusGroups l).foldl statsStep {}).completed_goals_count
        = countStatus l .completed)
    ∧ (((statusGroups l).foldl statsStep {}).failed_goals_count
        = countStatus l .failed) := by
  refine ⟨?_, ?_, ?_⟩
  · rw [foldl_statsStep_active,
      statusGroups_filter_status l .active (Or.inl rfl)]
    by_cases h : countStatus l .active = 0
    · rw [if_neg (by simp [groupFor_count, h])]
      simpa using h.symm
    · rw [if_pos (by simp [groupFor_count, h])]
      exact groupFor_count l .active
  · rw [foldl_statsStep_completed,
      statusGroups_filter_status l .completed (Or.inr (Or.inl rfl))]
    by_cases h : countStatus l .completed = 0
    · rw [if_neg (by simp [groupFor_count, h])]
      simpa using h.symm
    · rw [if_pos (by simp [groupFor_count, h])]
      exact groupFor_count l .completed
  · rw [foldl_statsStep_failed,
      statusGroups_filter_status l .failed (Or.inr (Or.inr rfl))]
    by_cases h : countStatus l .failed = 0
    · rw [if_neg (by simp [groupFor_count, h])]
      simpa using h.symm
    · rw [if_pos (by simp [groupFor_count, h])]
      exact groupFor_count l .failed

/-- C8 amended: `get_goal_stats` averages the summed `avg_progress * count`
over every present status group — archived included — but divides by
`total_goals_count = active + completed + failed`, which *excludes* archived
goals.  So the reported average is the total progress over all the user's
goals divided by the count of the non-archived-status ones (and can exceed
100 when archived goals exist), not the all-statuses weighted average the
claim describes. -/
theorem get_goal_stats_average (s : Store) (uid : String)
    (hpos : 0 < countedGoals (userGoals s uid)) :
    (get_goal_stats s uid).average_progress
      = sumProgress (userGoals s uid)
        / (countedGoals (userGoals s uid) : ℚ) := by
  obtain ⟨hA, hC, hF⟩ := stats_fold_counts (userGoals s uid)
  have hcount : ((statusGroups (userGoals s uid)).foldl statsStep
        {}).active_goals_count
      + ((statusGroups (userGoals s uid)).foldl statsStep
        {}).completed_goals_count
      + ((statusGroups (userGoals s uid)).foldl statsStep
        {}).failed_goals_count = countedGoals (userGoals s uid) := by
    rw [hA, hC, hF]; rfl
  simp only [get_goal_stats]
  simp only [show s.goals.filter (fun g => g.user_id == uid)
    = userGoals s uid from rfl]
  simp only [hcount, statusGroups_sum]
  rw [if_pos hpos]

/-- An active goal at 50% for the stats scenario. -/
def statsActive : GoalDoc :=
  { id := 3, user_id := "w", name := "A", category := some "Otros",
    target_amount := 100, current_amount := 50, status := .active,
    progress_percentage := 50, is_public := false, is_main := false,
    updated_at := none }

/-- An archived goal at 100% for the stats scenario. -/
def statsArchived : GoalDoc :=
  { id := 4, user_id := "w", name := "B", category := some "Otros",
    target_amount := 100, current_amount := 100, status := .archived,
    progress_percentage := 100, is_public := false, is_main := false,
    updated_at := none }

/-- Store holding the two stats goals of user "w". -/
def statsStore : Store :=
  { goals := [statsActive, statsArchived], transactions := [] }

/-- C8 counterexample: for a user with one active goal at progress 50 and one
archived goal at progress 100, the code reports `average_progress = 150`
(numerator 50·1 + 100·1 over *both* groups, denominator 1 — archived not
counted), while the claim's formula — divide by the total goal count across
all statuses, here 2 — gives 75. -/
theorem get_goal_stats_average_counterexample :
    (get_goal_stats statsStore "w").average_progress = 150
    ∧ claimAverageProgress (userGoals statsStore "w") = 75
    ∧ (150 : ℚ) ≠ 75 := by
  refine ⟨?_, ?_, by norm_num⟩ <;>
  · simp +decide [get_goal_stats, claimAverageProgress, userGoals,
      statusGroups, statusList, groupFor, statsStep, statsStore, statsActive,
      statsArchived, goalStatus_beq, List.filter_cons, List.filter_nil]
    norm_num

/-- Witness for `get_goal_stats_average` at the concrete stats store: the
non-archived count is 1 and the reported average is (50 + 100) / 1. -/
theorem get_goal_stats_average_witness :
    0 < countedGoals (userGoals statsStore "w")
    ∧ (get_goal_stats statsStore "w").average_progress
        = sumProgress (userGoals statsStore "w")
          / (countedGoals (userGoals statsStore "w") : ℚ) :=
  ⟨by decide, get_goal_stats_average statsStore "w" (by decide)⟩

end GastoSmart
